import Mathlib

/-!
Verification of the rate-limiting decorator in src/ratelimit/decorators.py.

The decorator state (duration, sleep, raise_on_limit, burst, burst_max,
last_reset, num_calls) is embedded as a structure over exact rationals; the
injected zero-argument clock is represented by passing the successive clock
readings of one wrapper invocation explicitly (t1 for the reading inside
__period_remaining, t2 for the reading in the replenishment line, t3 for the
reading stored into last_reset at the end; a frozen clock is t1 = t2 = t3).
The body of the wrapper closure is a pure state transition step; sequential
(lock-serialized) call sequences are folds of step.
-/

/-- Python int() applied to an exact value: truncation toward zero
(floor for nonnegative values, ceiling for negative ones). -/
def pyInt (q : ℚ) : ℤ := if 0 ≤ q then ⌊q⌋ else ⌈q⌉

/-- The attributes of a RateLimitDecorator instance that the wrapper reads or
writes. num_calls is assigned 0 in __init__ and never touched again. -/
structure RateLimitDecorator where
  duration : ℚ
  sleep : Bool
  raise_on_limit : Bool
  burst : ℚ
  burst_max : ℚ
  last_reset : ℚ
  num_calls : ℕ
deriving DecidableEq, Repr

/-- RateLimitDecorator.__init__ from src/ratelimit/decorators.py: it only
assigns attributes (no validation), setting both burst and burst_max to the
burst argument, last_reset to duration (a sentinel, not a clock reading) and
num_calls to 0. -/
def RateLimitDecorator.init (duration burst : ℚ) (sleep raise_on_limit : Bool) :
    RateLimitDecorator :=
  { duration := duration
    sleep := sleep
    raise_on_limit := raise_on_limit
    burst := burst
    burst_max := burst
    last_reset := duration
    num_calls := 0 }

/-- The outcome of one execution of the locked block of the wrapper:
either the fall-through to the decrement-and-reset tail (admitted, with
some p recording a time.sleep(p) performed on the way there, none otherwise),
or the raise of RateLimitException (raised, carrying period_remaining). -/
inductive Decision where
  | admitted : Option ℚ → Decision
  | raised : ℚ → Decision
deriving DecidableEq, Repr

/-- Whether a decision is the raising outcome. -/
def Decision.isRaised : Decision → Bool
  | Decision.admitted _ => false
  | Decision.raised _ => true

/-- The value carried by a raising decision, if any. -/
def Decision.retryAfterValue : Decision → Option ℚ
  | Decision.admitted _ => none
  | Decision.raised p => some p

/-- RateLimitDecorator.__period_remaining: duration - (clock() - last_reset),
with t the clock reading. -/
def RateLimitDecorator.period_remaining (s : RateLimitDecorator) (t : ℚ) : ℚ :=
  let elapsed := t - s.last_reset
  s.duration - elapsed

/-- The two replenishment lines of the wrapper:
burst += (clock() - last_reset) * 1 / duration, then the cap
burst = burst_max if burst > burst_max else burst. t2 is the clock reading. -/
def RateLimitDecorator.replenished (s : RateLimitDecorator) (t2 : ℚ) : ℚ :=
  let burst := s.burst + (t2 - s.last_reset) * 1 / s.duration
  if burst > s.burst_max then s.burst_max else burst

/-- The unconditional tail of the wrapper body reached on every non-raising
path: burst = burst - 1 if burst >= 1 else 0, then last_reset = clock()
(reading t3). slept records a sleep performed before reaching the tail. -/
def RateLimitDecorator.admitFrom (s : RateLimitDecorator) (burst t3 : ℚ)
    (slept : Option ℚ) : Decision × RateLimitDecorator :=
  (Decision.admitted slept,
   { s with burst := if burst ≥ 1 then burst - 1 else 0, last_reset := t3 })

/-- One execution of the body of the wrapper closure in
RateLimitDecorator.__call__ (the code inside with self.lock, plus which of the
two exits is taken). When the call is over budget (period_remaining > 0 and
int(burst) == 0 after replenishment): if sleep is set the code calls
time.sleep(period_remaining) while still holding the lock and then falls
through to the tail; else if raise_on_limit it raises, leaving the replenished
burst and the old last_reset; else it falls through silently. Otherwise it
falls through to the tail directly. -/
def RateLimitDecorator.step (s : RateLimitDecorator) (t1 t2 t3 : ℚ) :
    Decision × RateLimitDecorator :=
  let period_remaining := s.period_remaining t1
  let burst := s.replenished t2
  if period_remaining > 0 ∧ pyInt burst = 0 then
    if s.sleep then
      s.admitFrom burst t3 (some period_remaining)
    else if s.raise_on_limit then
      (Decision.raised period_remaining, { s with burst := burst })
    else
      s.admitFrom burst t3 none
  else
    s.admitFrom burst t3 none

/-- Modelled from the spec: ratelimit/exception.py is not among the source
files (decorators.py imports RateLimitException from it). Per spec section 7
the single error kind carries retryAfter as a number of seconds; decorators.py
constructs it as RateLimitException with the message string and
period_remaining, so retryAfter holds the remaining period. -/
structure RateLimitException where
  message : String
  retryAfter : ℚ
deriving DecidableEq

/-- What a call to the wrapped function can produce for the caller: the value
of func, the rate-limit error, or an exception raised by func itself. -/
inductive WrapperResult (ε β : Type) where
  | ok : β → WrapperResult ε β
  | rateLimited : RateLimitException → WrapperResult ε β
  | funcRaised : ε → WrapperResult ε β
deriving DecidableEq

/-- The whole wrapper call including return func(*args, **kargs), which sits
after (outside) the with self.lock block: func is the outcome of the wrapped
work, Except.error e modelling func raising e. The state returned is the one
committed by the locked block, whatever func does. -/
def RateLimitDecorator.wrapper {ε β : Type} (s : RateLimitDecorator)
    (t1 t2 t3 : ℚ) (func : Except ε β) : WrapperResult ε β × RateLimitDecorator :=
  match s.step t1 t2 t3 with
  | (Decision.raised p, s1) => (WrapperResult.rateLimited ⟨"too many calls", p⟩, s1)
  | (Decision.admitted _, s1) =>
      match func with
      | Except.ok v => (WrapperResult.ok v, s1)
      | Except.error e => (WrapperResult.funcRaised e, s1)

/-- A lock-serialized sequence of wrapper calls: each list element gives the
three clock readings of one call. Returns the decisions in call order together
with the final state. -/
def run (s : RateLimitDecorator) :
    List (ℚ × ℚ × ℚ) → List Decision × RateLimitDecorator
  | [] => ([], s)
  | (t1, t2, t3) :: rest =>
      let r := s.step t1 t2 t3
      let rs := run r.2 rest
      (r.1 :: rs.1, rs.2)

/-- Number of admitted (non-raising) decisions in a serialized call sequence. -/
def countAdmitted : List Decision → ℕ
  | [] => 0
  | Decision.admitted _ :: rest => countAdmitted rest + 1
  | Decision.raised _ :: rest => countAdmitted rest

/-- Outcome of the attempt operation as the spec words describe it. -/
inductive SpecOutcome where
  | admitted : SpecOutcome
  | raised : ℚ → SpecOutcome
deriving DecidableEq, Repr

/-- Modelled from the spec, for comparison with step (the refinement side of
the sleep-retry claim): spec section 4.1 steps 2-7 read literally, with the
over-budget test floor(burst) == 0, and with the sleep branch releasing the
lock, sleeping period_remaining (the clock advancing by exactly the slept
amount) and re-running the decision from step 2 as a retry loop. The fuel
argument bounds the retries; the result carries the outcome, the final state
and the final clock value. -/
def specAttempt :
    ℕ → RateLimitDecorator → ℚ → Option (SpecOutcome × RateLimitDecorator × ℚ)
  | 0, _, _ => none
  | fuel + 1, s, t =>
      let elapsed := t - s.last_reset
      let period_remaining := s.duration - elapsed
      let burst := min s.burst_max (s.burst + elapsed / s.duration)
      if period_remaining > 0 ∧ ⌊burst⌋ = 0 then
        if s.sleep then
          specAttempt fuel { s with burst := burst } (t + period_remaining)
        else if s.raise_on_limit then
          some (SpecOutcome.raised period_remaining, { s with burst := burst }, t)
        else
          some (SpecOutcome.admitted,
                { s with burst := max 0 (burst - 1), last_reset := t }, t)
      else
        some (SpecOutcome.admitted,
              { s with burst := max 0 (burst - 1), last_reset := t }, t)

/-! Helper lemmas. -/

/-- The capped replenishment never exceeds burst_max. -/
theorem replenished_le_burst_max (s : RateLimitDecorator) (t2 : ℚ) :
    s.replenished t2 ≤ s.burst_max := by
  simp only [RateLimitDecorator.replenished]
  split_ifs with h
  · exact le_refl _
  · exact le_of_not_lt h

/-- The capped replenishment is the minimum of burst_max and the uncapped sum. -/
theorem replenished_eq_min (s : RateLimitDecorator) (t2 : ℚ) :
    s.replenished t2 = min s.burst_max (s.burst + (t2 - s.last_reset) / s.duration) := by
  simp only [RateLimitDecorator.replenished, mul_one]
  split_ifs with h
  · exact (min_eq_left (le_of_lt h)).symm
  · exact (min_eq_right (le_of_not_lt h)).symm

/-- step never changes the configuration fields. -/
theorem step_config_eq (s : RateLimitDecorator) (t1 t2 t3 : ℚ) :
    (s.step t1 t2 t3).2.duration = s.duration ∧
    (s.step t1 t2 t3).2.sleep = s.sleep ∧
    (s.step t1 t2 t3).2.raise_on_limit = s.raise_on_limit ∧
    (s.step t1 t2 t3).2.burst_max = s.burst_max := by
  simp only [RateLimitDecorator.step, RateLimitDecorator.admitFrom]
  split_ifs <;> simp

/-- A single completed call leaves burst at or below burst_max whenever
burst_max is nonnegative, whatever the clock readings. -/
theorem step_burst_le (s : RateLimitDecorator) (t1 t2 t3 : ℚ)
    (h0 : 0 ≤ s.burst_max) : (s.step t1 t2 t3).2.burst ≤ s.burst_max := by
  have hr := replenished_le_burst_max s t2
  simp only [RateLimitDecorator.step, RateLimitDecorator.admitFrom]
  split_ifs <;> dsimp only <;> first
    | exact hr
    | exact h0
    | linarith

/-- A completed call that does not raise leaves burst nonnegative. -/
theorem step_not_raised_burst_nonneg (s : RateLimitDecorator) (t1 t2 t3 : ℚ)
    (h : (s.step t1 t2 t3).1.isRaised = false) : 0 ≤ (s.step t1 t2 t3).2.burst := by
  simp only [RateLimitDecorator.step, RateLimitDecorator.admitFrom] at h ⊢
  split_ifs at h ⊢ <;>
    dsimp only [Decision.isRaised] at h ⊢ <;> first
    | exact Bool.noConfusion h
    | linarith

/-- Over any nonempty lock-serialized sequence of completed calls, the final
burst is at most burst_max whenever burst_max is nonnegative. -/
theorem run_burst_le (calls : List (ℚ × ℚ × ℚ)) (s : RateLimitDecorator)
    (h0 : 0 ≤ s.burst_max) (hne : calls ≠ []) :
    (run s calls).2.burst ≤ s.burst_max := by
  induction calls generalizing s with
  | nil => exact absurd rfl hne
  | cons c rest ih =>
      obtain ⟨t1, t2, t3⟩ := c
      rcases rest with _ | ⟨c2, rest2⟩
      · simpa [run] using step_burst_le s t1 t2 t3 h0
      · have hbm := (step_config_eq s t1 t2 t3).2.2.2
        have h1 := ih (s.step t1 t2 t3).2 (by rw [hbm]; exact h0) (by simp)
        rw [hbm] at h1
        simpa [run] using h1

/-- After an admitted call the state with burst = 0 and last_reset equal to the
frozen clock value is dead: the next call at the same clock value raises and
leaves the state unchanged. Needs a positive duration and nonnegative
burst_max, raising configured and sleeping not. -/
theorem dead_step (s : RateLimitDecorator) (t : ℚ) (hb : s.burst = 0)
    (hl : s.last_reset = t) (hs : s.sleep = false) (hr : s.raise_on_limit = true)
    (hd : 0 < s.duration) (hbm : 0 ≤ s.burst_max) :
    s.step t t t = (Decision.raised s.duration, s) := by
  have hse : { s with burst := (0:ℚ) } = s := by rw [← hb]
  simp only [RateLimitDecorator.step, RateLimitDecorator.period_remaining,
    RateLimitDecorator.replenished, RateLimitDecorator.admitFrom, hb, hl, hs, hr]
  norm_num [pyInt]
  rw [if_neg (not_lt.mpr hbm)]
  rw [hs, hl, hr] at hse
  norm_num [hd, hse]

/-- From the dead state every further frozen-clock call raises: no admissions. -/
theorem dead_run (m : ℕ) (s : RateLimitDecorator) (t : ℚ) (hb : s.burst = 0)
    (hl : s.last_reset = t) (hs : s.sleep = false) (hr : s.raise_on_limit = true)
    (hd : 0 < s.duration) (hbm : 0 ≤ s.burst_max) :
    countAdmitted (run s (List.replicate m (t, t, t))).1 = 0 := by
  induction m with
  | zero => simp [run, countAdmitted]
  | succ k ih =>
      rw [List.replicate_succ]
      simp only [run, dead_step s t hb hl hs hr hd hbm]
      simpa [countAdmitted] using ih

/-- On a frozen clock an admitted call with burst_max = 1 commits burst = 0 and
last_reset = t. -/
theorem step_admit_post (s : RateLimitDecorator) (t : ℚ) (o : Option ℚ)
    (s1 : RateLimitDecorator) (hbm : s.burst_max = 1)
    (hstep : s.step t t t = (Decision.admitted o, s1)) :
    s1.burst = 0 ∧ s1.last_reset = t := by
  have hle : s.replenished t ≤ 1 := hbm ▸ replenished_le_burst_max s t
  simp only [RateLimitDecorator.step, RateLimitDecorator.admitFrom] at hstep
  split_ifs at hstep <;>
    simp only [Prod.mk.injEq] at hstep <;> first
    | exact Bool.noConfusion (congrArg Decision.isRaised hstep.1)
    | (obtain ⟨-, h⟩ := hstep
       subst h
       refine ⟨?_, rfl⟩
       dsimp only
       all_goals linarith)

/-- With a frozen clock, burst_max = 1, a positive duration, raising configured
and sleeping not, a serialized sequence of calls admits at most one of them. -/
theorem frozen_at_most_one (n : ℕ) (s : RateLimitDecorator) (t : ℚ)
    (hs : s.sleep = false) (hr : s.raise_on_limit = true)
    (hbm : s.burst_max = 1) (hd : 0 < s.duration) :
    countAdmitted (run s (List.replicate n (t, t, t))).1 ≤ 1 := by
  induction n generalizing s with
  | zero => simp [run, countAdmitted]
  | succ k ih =>
      rw [List.replicate_succ]
      have conf := step_config_eq s t t t
      rcases hstep : s.step t t t with ⟨d, s1⟩
      rw [hstep] at conf
      cases d with
      | raised p =>
          have h1 := ih s1 (conf.2.1.trans hs) (conf.2.2.1.trans hr)
            (conf.2.2.2.trans hbm) (conf.1 ▸ hd)
          simpa [run, hstep, countAdmitted] using h1
      | admitted o =>
          obtain ⟨hb1, hl1⟩ := step_admit_post s t o s1 hbm hstep
          have h0 := dead_run k s1 t hb1 hl1 (conf.2.1.trans hs)
            (conf.2.2.1.trans hr) (conf.1 ▸ hd)
            (by rw [conf.2.2.2, hbm]; norm_num)
          simp [run, hstep, countAdmitted, h0]

/-- Claim C1, counterexample: with burstMax = 1, duration = 1 and the clock
frozen at t = 0 (raise_on_limit = true, sleep = false), the FIRST guarded call
is not admitted. Because last_reset is initialised to duration = 1, elapsed is
-1, the replenishment deflates burst to 0, and the call raises with
period_remaining = 2 — refuting both that the first call admits and that the
second call is the one that fails with retryAfter about 1.0. -/
theorem C1_counterexample :
    ((RateLimitDecorator.init 1 1 false true).step 0 0 0).1 = Decision.raised 2 := by
  norm_num [RateLimitDecorator.init, RateLimitDecorator.step,
    RateLimitDecorator.period_remaining, RateLimitDecorator.replenished,
    RateLimitDecorator.admitFrom, pyInt]

/-- Claim C1, amended: with burstMax = 1, duration = 1 and the clock frozen at
t = 0, the FIRST call fails — it raises with period_remaining = 2 (the
replenishment against the sentinel last_reset = duration deflates burst to 0),
the wrapper surfacing RateLimitException "too many calls" with retryAfter = 2 —
leaving burst = 0 and last_reset = 1; the immediate SECOND call at t = 0 is
then admitted without sleeping (burst replenishes to -1, whose Python int is
-1, not 0), leaving burst = 0 and last_reset = 0. -/
theorem C1_amended :
    (RateLimitDecorator.init 1 1 false true).step 0 0 0 =
      (Decision.raised 2,
       { duration := 1, sleep := false, raise_on_limit := true, burst := 0,
         burst_max := 1, last_reset := 1, num_calls := 0 }) ∧
    (@RateLimitDecorator.wrapper Unit Unit (RateLimitDecorator.init 1 1 false true)
        0 0 0 (Except.ok ())).1 =
      WrapperResult.rateLimited ⟨"too many calls", 2⟩ ∧
    RateLimitDecorator.step
      { duration := 1, sleep := false, raise_on_limit := true, burst := 0,
        burst_max := 1, last_reset := 1, num_calls := 0 } 0 0 0 =
      (Decision.admitted none,
       { duration := 1, sleep := false, raise_on_limit := true, burst := 0,
         burst_max := 1, last_reset := 0, num_calls := 0 }) := by
  refine ⟨?_, ?_, ?_⟩ <;>
    norm_num [RateLimitDecorator.init, RateLimitDecorator.step,
      RateLimitDecorator.wrapper, RateLimitDecorator.period_remaining,
      RateLimitDecorator.replenished, RateLimitDecorator.admitFrom, pyInt,
      Int.ceil_eq_iff]

/-- Claim C2, counterexample: the code does not release the lock, sleep and
re-run the decision from step 2 — it sleeps once (inside the lock) and then
admits without re-evaluating. Reachable witness state: from init with
duration = 1, burst(Max) = 2, sleep = true, two admitted calls at clock 1 leave
burst = 0, last_reset = 1. A third call with pre-sleep clock readings 3/2
(over budget, sleeps period_remaining = 1/2, waking at clock 2) commits
burst = 0 under the code, whereas re-running the decision from step 2 after the
sleep, as the claim describes (specAttempt), replenishes again and commits
burst = 1/2: the two semantics produce different states. -/
theorem C2_counterexample :
    (run (RateLimitDecorator.init 1 2 true true) [(1, 1, 1), (1, 1, 1)]).2 =
      { duration := 1, sleep := true, raise_on_limit := true, burst := 0,
        burst_max := 2, last_reset := 1, num_calls := 0 } ∧
    RateLimitDecorator.step
      { duration := 1, sleep := true, raise_on_limit := true, burst := 0,
        burst_max := 2, last_reset := 1, num_calls := 0 } (3/2) (3/2) 2 =
      (Decision.admitted (some (1/2)),
       { duration := 1, sleep := true, raise_on_limit := true, burst := 0,
         burst_max := 2, last_reset := 2, num_calls := 0 }) ∧
    specAttempt 2
      { duration := 1, sleep := true, raise_on_limit := true, burst := 0,
        burst_max := 2, last_reset := 1, num_calls := 0 } (3/2) =
      some (SpecOutcome.admitted,
            { duration := 1, sleep := true, raise_on_limit := true, burst := 1/2,
              burst_max := 2, last_reset := 2, num_calls := 0 }, 2) ∧
    (0 : ℚ) ≠ 1/2 := by
  refine ⟨?_, ?_, ?_, by norm_num⟩ <;>
    norm_num [run, RateLimitDecorator.init, RateLimitDecorator.step,
      RateLimitDecorator.period_remaining, RateLimitDecorator.replenished,
      RateLimitDecorator.admitFrom, pyInt, specAttempt,
      Int.floor_eq_iff, Int.ceil_eq_iff]

/-- Claim C2, amended: when a call is over budget (period_remaining > 0 and the
Python int of the replenished burst is 0) and sleep is set, the code calls
time.sleep(period_remaining) once, while still holding the lock, and then
admits unconditionally without re-running the decision: the decision is
admitted (some period_remaining) — in particular the call never raises — so
with burstMax = 1, duration = 1, sleepOnLimit = true an over-budget call sleeps
once for period_remaining and is then admitted. -/
theorem C2_amended (s : RateLimitDecorator) (t1 t2 t3 : ℚ)
    (hs : s.sleep = true) (hp : s.period_remaining t1 > 0)
    (hb : pyInt (s.replenished t2) = 0) :
    (s.step t1 t2 t3).1 = Decision.admitted (some (s.period_remaining t1)) ∧
    (s.step t1 t2 t3).1.isRaised = false := by
  simp only [RateLimitDecorator.step, RateLimitDecorator.admitFrom,
    if_pos (And.intro hp hb), hs, if_pos rfl]
  exact ⟨rfl, rfl⟩

/-- Claim C2, witness: the freshly constructed limiter with duration = 1,
burst = 1, sleep = true is over budget at frozen clock 0 and the call is
admitted after a recorded sleep of period_remaining = 2, raising nothing. -/
theorem C2_amended_witness :
    ((RateLimitDecorator.init 1 1 true true).step 0 0 0).1 =
      Decision.admitted (some ((RateLimitDecorator.init 1 1 true true).period_remaining 0)) ∧
    ((RateLimitDecorator.init 1 1 true true).step 0 0 0).1.isRaised = false :=
  C2_amended (RateLimitDecorator.init 1 1 true true) 0 0 0 rfl
    (by norm_num [RateLimitDecorator.init, RateLimitDecorator.period_remaining])
    (by norm_num [RateLimitDecorator.init, RateLimitDecorator.replenished, pyInt])

/-- Claim C3, counterexample: the lower bound 0 <= burst can fail after a
completed (failed) call. With duration = 10, burstMax = 1 and monotone clock
readings 1 then 2: the first call raises and leaves burst = 1/10 with
last_reset still 10 (the sentinel); the second call replenishes
burst = 1/10 + (2 - 10)/10 = -7/10 and raises again (its Python int is 0), so
the state after the completed second call has burst = -7/10 < 0. -/
theorem C3_counterexample :
    (run (RateLimitDecorator.init 10 1 false true) [(1, 1, 1), (2, 2, 2)]).2.burst
      = -7/10 ∧ (-7/10 : ℚ) < 0 := by
  refine ⟨?_, by norm_num⟩
  norm_num [run, RateLimitDecorator.init, RateLimitDecorator.step,
    RateLimitDecorator.period_remaining, RateLimitDecorator.replenished,
    RateLimitDecorator.admitFrom, pyInt, Int.floor_eq_iff, Int.ceil_eq_iff]

/-- Claim C3, amended: for every start state with 0 <= burst_max and every
nonempty lock-serialized sequence of completed calls (with arbitrary clock
readings), the final burst is at most burst_max — replenishment saturates at
burst_max, burst_max is preserved by every call, and since the start state is
arbitrary this bounds the state after EACH completed call of any sequence.
Moreover any single call either raises or leaves burst nonnegative (the
decrement clamps at 0), so 0 <= burst also holds after every admitted or
passed-through call; but a raising call can leave burst < 0 (see the
counterexample), so the claimed lower bound does not hold after every
completed call. -/
theorem C3_amended (s : RateLimitDecorator) (calls : List (ℚ × ℚ × ℚ))
    (t1 t2 t3 : ℚ) (h0 : 0 ≤ s.burst_max) :
    (run s ((t1, t2, t3) :: calls)).2.burst ≤ s.burst_max ∧
    ((s.step t1 t2 t3).1.isRaised = true ∨ 0 ≤ (s.step t1 t2 t3).2.burst) := by
  constructor
  · exact run_burst_le ((t1, t2, t3) :: calls) s h0 (by simp)
  · rcases hts : (s.step t1 t2 t3).1.isRaised with h | h
    · exact Or.inr (step_not_raised_burst_nonneg s t1 t2 t3 hts)
    · exact Or.inl rfl

/-- Claim C3, witness: from the freshly constructed limiter with duration = 1,
burst(Max) = 1 and one call at frozen clock 0, the final burst is at most 1,
and that call either raises or ends with nonnegative burst. -/
theorem C3_amended_witness :
    (run (RateLimitDecorator.init 1 1 false true) [(0, 0, 0)]).2.burst ≤
      (RateLimitDecorator.init 1 1 false true).burst_max ∧
    (((RateLimitDecorator.init 1 1 false true).step 0 0 0).1.isRaised = true ∨
     0 ≤ ((RateLimitDecorator.init 1 1 false true).step 0 0 0).2.burst) :=
  C3_amended (RateLimitDecorator.init 1 1 false true) [] 0 0 0
    (by norm_num [RateLimitDecorator.init])

/-- Claim C4, counterexample: the over-budget test in the code compares the
Python int() of burst (truncation toward zero) with 0, not its floor. From
init with duration = 10, burstMax = 1: the first call at clock 1 raises and
leaves burst = 1/10; the second call at clock 2 replenishes burst to -7/10 and
RAISES with period_remaining = 18 even though the floor of -7/10 is -1, not 0
— refuting the claimed raise-only-if-floor-is-zero characterisation. -/
theorem C4_counterexample :
    ((((RateLimitDecorator.init 10 1 false true).step 1 1 1).2).step 2 2 2).1 =
      Decision.raised 18 ∧
    ⌊((((RateLimitDecorator.init 10 1 false true).step 1 1 1).2).step 2 2 2).2.burst⌋
      = -1 := by
  constructor <;>
    norm_num [RateLimitDecorator.init, RateLimitDecorator.step,
      RateLimitDecorator.period_remaining, RateLimitDecorator.replenished,
      RateLimitDecorator.admitFrom, pyInt, Int.floor_eq_iff, Int.ceil_eq_iff]

/-- Claim C4, amended: a call raises exactly when, after replenishment,
period_remaining > 0, the PYTHON TRUNCATION toward zero of the replenished
burst is 0 (not its floor), sleep is false and raise_on_limit is true; when it
raises it carries exactly period_remaining, and at the wrapper level the only
limiter-originated error is RateLimitException "too many calls" whose
retryAfter is that period_remaining. -/
theorem C4_amended (s : RateLimitDecorator) (t1 t2 t3 : ℚ) :
    ((s.step t1 t2 t3).1.isRaised = true ↔
      (s.period_remaining t1 > 0 ∧ pyInt (s.replenished t2) = 0 ∧
       s.sleep = false ∧ s.raise_on_limit = true)) ∧
    (s.step t1 t2 t3).1.retryAfterValue =
      (if s.period_remaining t1 > 0 ∧ pyInt (s.replenished t2) = 0 ∧
          s.sleep = false ∧ s.raise_on_limit = true
       then some (s.period_remaining t1) else none) ∧
    (@RateLimitDecorator.wrapper Unit Unit s t1 t2 t3 (Except.ok ())).1 =
      (if s.period_remaining t1 > 0 ∧ pyInt (s.replenished t2) = 0 ∧
          s.sleep = false ∧ s.raise_on_limit = true
       then WrapperResult.rateLimited ⟨"too many calls", s.period_remaining t1⟩
       else WrapperResult.ok ()) := by
  by_cases h1 : s.period_remaining t1 > 0 ∧ pyInt (s.replenished t2) = 0 <;>
  cases hsl : s.sleep <;>
  cases hrl : s.raise_on_limit <;>
    simp [RateLimitDecorator.step, RateLimitDecorator.wrapper,
      RateLimitDecorator.admitFrom, Decision.isRaised, Decision.retryAfterValue,
      h1, hsl, hrl]

/-- Claim C5: for any call on a limiter with positive duration, the
replenishment computes exactly min(burst_max, burst + elapsed/duration) with
elapsed = t2 - last_reset — one token per duration, independent of burst_max —
and a non-raising call then commits burst = max 0 (replenished - 1) and
last_reset = t3 (the clock reading), while a raising call keeps the replenished
burst and the old last_reset. -/
theorem C5_theorem (s : RateLimitDecorator) (t1 t2 t3 : ℚ) (hd : 0 < s.duration) :
    s.replenished t2 = min s.burst_max (s.burst + (t2 - s.last_reset) / s.duration) ∧
    (s.step t1 t2 t3).2.burst =
      (if (s.step t1 t2 t3).1.isRaised then s.replenished t2
       else max 0 (s.replenished t2 - 1)) ∧
    (s.step t1 t2 t3).2.last_reset =
      (if (s.step t1 t2 t3).1.isRaised then s.last_reset else t3) := by
  refine ⟨replenished_eq_min s t2, ?_⟩
  have hmax : (if s.replenished t2 ≥ 1 then s.replenished t2 - 1 else 0) =
      max 0 (s.replenished t2 - 1) := by
    split_ifs with h
    · exact (max_eq_right (by linarith)).symm
    · exact (max_eq_left (by linarith)).symm
  simp only [RateLimitDecorator.step, RateLimitDecorator.admitFrom]
  split_ifs <;> simp_all [Decision.isRaised, hmax]

/-- Claim C5, witness: at the freshly constructed limiter with duration = 1,
burst(Max) = 1 and a call at frozen clock 0. -/
theorem C5_theorem_witness :
    (RateLimitDecorator.init 1 1 false true).replenished 0 =
      min (RateLimitDecorator.init 1 1 false true).burst_max
        ((RateLimitDecorator.init 1 1 false true).burst +
         (0 - (RateLimitDecorator.init 1 1 false true).last_reset) /
         (RateLimitDecorator.init 1 1 false true).duration) ∧
    (((RateLimitDecorator.init 1 1 false true).step 0 0 0).2.burst =
      if ((RateLimitDecorator.init 1 1 false true).step 0 0 0).1.isRaised
      then (RateLimitDecorator.init 1 1 false true).replenished 0
      else max 0 ((RateLimitDecorator.init 1 1 false true).replenished 0 - 1)) ∧
    (((RateLimitDecorator.init 1 1 false true).step 0 0 0).2.last_reset =
      if ((RateLimitDecorator.init 1 1 false true).step 0 0 0).1.isRaised
      then (RateLimitDecorator.init 1 1 false true).last_reset else 0) :=
  C5_theorem (RateLimitDecorator.init 1 1 false true) 0 0 0
    (by norm_num [RateLimitDecorator.init])

/-- Claim C6, counterexample: construction does not fail fast on invalid
values: __init__ only assigns attributes, so constructing with the invalid
duration 0 and the invalid burst -2 succeeds and yields an instance storing
those values verbatim instead of an error. -/
theorem C6_counterexample :
    RateLimitDecorator.init 0 (-2) false true =
      { duration := 0, sleep := false, raise_on_limit := true, burst := -2,
        burst_max := -2, last_reset := 0, num_calls := 0 } := rfl

/-- Claim C6, amended: no configuration validation happens at construction:
for every configuration, including duration <= 0 or burst <= 0, construction
succeeds and stores the given values unchanged (burst and burst_max both equal
the burst argument, last_reset the duration); invalid values are not rejected
and can only surface as misbehaviour later, at call time. -/
theorem C6_amended (d b : ℚ) (sl r : Bool) :
    (RateLimitDecorator.init d b sl r).duration = d ∧
    (RateLimitDecorator.init d b sl r).burst = b ∧
    (RateLimitDecorator.init d b sl r).burst_max = b ∧
    (RateLimitDecorator.init d b sl r).last_reset = d ∧
    (RateLimitDecorator.init d b sl r).sleep = sl ∧
    (RateLimitDecorator.init d b sl r).raise_on_limit = r :=
  ⟨rfl, rfl, rfl, rfl, rfl, rfl⟩

/-- Claim C7: with sleep = false and raise_on_limit = false an over-budget call
(period_remaining > 0 and Python int of the replenished burst = 0, on a limiter
with positive duration) is admitted immediately: the decision is admitted none
— no sleep recorded, nothing raised — and the wrapper returns the value of the wrapped
work unchanged. -/
theorem C7_theorem (ε β : Type) (v : β) (s : RateLimitDecorator) (t1 t2 t3 : ℚ)
    (hd : 0 < s.duration) (hs : s.sleep = false) (hr : s.raise_on_limit = false)
    (hp : s.period_remaining t1 > 0) (hb : pyInt (s.replenished t2) = 0) :
    (s.step t1 t2 t3).1 = Decision.admitted none ∧
    (@RateLimitDecorator.wrapper ε β s t1 t2 t3 (Except.ok v)).1 =
      WrapperResult.ok v := by
  have hstep : (s.step t1 t2 t3).1 = Decision.admitted none := by
    simp [RateLimitDecorator.step, RateLimitDecorator.admitFrom,
      if_pos (And.intro hp hb), hs, hr]
  refine ⟨hstep, ?_⟩
  rcases h2 : s.step t1 t2 t3 with ⟨d, s1⟩
  rw [h2] at hstep
  subst hstep
  simp [RateLimitDecorator.wrapper, h2]

/-- Claim C7, witness: the limiter constructed with duration = 1, burst = 1,
sleep = false, raise_on_limit = false is over budget at frozen clock 0 and the
call passes through, returning the wrapped value. -/
theorem C7_theorem_witness :
    ((RateLimitDecorator.init 1 1 false false).step 0 0 0).1 =
      Decision.admitted none ∧
    (@RateLimitDecorator.wrapper Unit Unit (RateLimitDecorator.init 1 1 false false)
        0 0 0 (Except.ok ())).1 = WrapperResult.ok () :=
  C7_theorem Unit Unit () (RateLimitDecorator.init 1 1 false false) 0 0 0
    (by norm_num [RateLimitDecorator.init]) rfl rfl
    (by norm_num [RateLimitDecorator.init, RateLimitDecorator.period_remaining])
    (by norm_num [RateLimitDecorator.init, RateLimitDecorator.replenished, pyInt])

/-- Claim C8: on the raise path (over budget, sleep = false,
raise_on_limit = true, positive duration) the call raises
period_remaining and the only state change is the step-4 replenishment:
burst becomes exactly min(burst_max, old burst + elapsed/duration) with no
decrement, and last_reset keeps its pre-call value. -/
theorem C8_theorem (s : RateLimitDecorator) (t1 t2 t3 : ℚ) (hd : 0 < s.duration)
    (hs : s.sleep = false) (hr : s.raise_on_limit = true)
    (hp : s.period_remaining t1 > 0) (hb : pyInt (s.replenished t2) = 0) :
    s.step t1 t2 t3 =
      (Decision.raised (s.period_remaining t1),
       { s with burst := min s.burst_max (s.burst + (t2 - s.last_reset) / s.duration) }) := by
  rw [← replenished_eq_min s t2]
  simp [RateLimitDecorator.step, if_pos (And.intro hp hb), hs, hr]

/-- Claim C8, witness: the limiter constructed with duration = 1, burst = 1 at
frozen clock 0 raises with period_remaining = 2 and commits
burst = min 1 (1 + (0 - 1)/1) = 0 while last_reset stays 1. -/
theorem C8_theorem_witness :
    (RateLimitDecorator.init 1 1 false true).step 0 0 0 =
      (Decision.raised ((RateLimitDecorator.init 1 1 false true).period_remaining 0),
       { RateLimitDecorator.init 1 1 false true with
         burst := min (RateLimitDecorator.init 1 1 false true).burst_max
           ((RateLimitDecorator.init 1 1 false true).burst +
            (0 - (RateLimitDecorator.init 1 1 false true).last_reset) /
            (RateLimitDecorator.init 1 1 false true).duration) }) :=
  C8_theorem (RateLimitDecorator.init 1 1 false true) 0 0 0
    (by norm_num [RateLimitDecorator.init]) rfl rfl
    (by norm_num [RateLimitDecorator.init, RateLimitDecorator.period_remaining])
    (by norm_num [RateLimitDecorator.init, RateLimitDecorator.replenished, pyInt])

/-- Claim C9, counterexample: it is not true that exactly one of N serialized
frozen-clock callers is admitted. With duration = 1, burstMax = 1,
raise_on_limit = true and the clock frozen at 1/2, N = 2 serialized calls from
the fresh limiter BOTH raise (the sentinel last_reset = 1 makes elapsed
negative, deflating burst below one whole token for both calls): zero
admissions, not one. -/
theorem C9_counterexample :
    countAdmitted (run (RateLimitDecorator.init 1 1 false true)
      [(1/2, 1/2, 1/2), (1/2, 1/2, 1/2)]).1 = 0 ∧
    countAdmitted (run (RateLimitDecorator.init 1 1 false true)
      [(1/2, 1/2, 1/2), (1/2, 1/2, 1/2)]).1 ≠ 1 := by
  have h : countAdmitted (run (RateLimitDecorator.init 1 1 false true)
      [(1/2, 1/2, 1/2), (1/2, 1/2, 1/2)]).1 = 0 := by
    norm_num [run, countAdmitted, RateLimitDecorator.init, RateLimitDecorator.step,
      RateLimitDecorator.period_remaining, RateLimitDecorator.replenished,
      RateLimitDecorator.admitFrom, pyInt, Int.floor_eq_iff]
  exact ⟨h, by rw [h]; norm_num⟩

/-- Claim C9, amended: the lock serializes the decision-and-mutation sequence,
modelled here by running the N calls sequentially; with a frozen clock,
burstMax = 1, raise_on_limit = true, sleep = false and a positive duration, AT
MOST one of the N serialized calls is admitted (every admitted call commits
burst = 0 and last_reset = the frozen time, after which every further call
raises), but possibly none, as the counterexample shows. The second half of
the original claim is also wrong about the source: time.sleep is executed
inside the with self.lock block, so a sleeping call holds the lock while it
sleeps. -/
theorem C9_amended (n : ℕ) (t d : ℚ) (hd : 0 < d) :
    countAdmitted (run (RateLimitDecorator.init d 1 false true)
      (List.replicate n (t, t, t))).1 ≤ 1 :=
  frozen_at_most_one n (RateLimitDecorator.init d 1 false true) t rfl rfl rfl hd

/-- Claim C9, witness: with duration 1, frozen clock 1/2 and two serialized
calls, at most one call is admitted. -/
theorem C9_amended_witness :
    countAdmitted (run (RateLimitDecorator.init 1 1 false true)
      (List.replicate 2 (1/2, 1/2, 1/2))).1 ≤ 1 :=
  C9_amended 2 (1/2) 1 (by norm_num)

/-- Claim C10: on a non-raising call the state is committed by the locked
block before func runs (func sits after the with block), so the outcome of the wrapped
function cannot change it: the wrapper returns exactly the state
produced by step — the consumed token is not refunded when func raises — and
the exception (or value) of func propagates to the caller unchanged. -/
theorem C10_theorem (ε β : Type) (e : ε) (v : β) (s : RateLimitDecorator)
    (t1 t2 t3 : ℚ) (h : (s.step t1 t2 t3).1.isRaised = false) :
    (@RateLimitDecorator.wrapper ε β s t1 t2 t3 (Except.error e)).2 =
      (s.step t1 t2 t3).2 ∧
    (@RateLimitDecorator.wrapper ε β s t1 t2 t3 (Except.error e)).1 =
      WrapperResult.funcRaised e ∧
    (@RateLimitDecorator.wrapper ε β s t1 t2 t3 (Except.ok v)).2 =
      (s.step t1 t2 t3).2 ∧
    (@RateLimitDecorator.wrapper ε β s t1 t2 t3 (Except.ok v)).1 =
      WrapperResult.ok v := by
  rcases hstep : s.step t1 t2 t3 with ⟨dec, s1⟩
  rw [hstep] at h
  cases dec with
  | raised p => exact Bool.noConfusion h
  | admitted o => simp [RateLimitDecorator.wrapper, hstep]

/-- Claim C10, witness: at the fresh limiter with duration 1 and clock frozen
at 2 the call is admitted (the window has fully elapsed), and the wrapper
commits the same state whether the wrapped function returns or raises,
propagating the outcome unchanged. -/
theorem C10_theorem_witness :
    (@RateLimitDecorator.wrapper Unit Unit (RateLimitDecorator.init 1 1 false true)
        2 2 2 (Except.error ())).2 =
      ((RateLimitDecorator.init 1 1 false true).step 2 2 2).2 ∧
    (@RateLimitDecorator.wrapper Unit Unit (RateLimitDecorator.init 1 1 false true)
        2 2 2 (Except.error ())).1 = WrapperResult.funcRaised () ∧
    (@RateLimitDecorator.wrapper Unit Unit (RateLimitDecorator.init 1 1 false true)
        2 2 2 (Except.ok ())).2 =
      ((RateLimitDecorator.init 1 1 false true).step 2 2 2).2 ∧
    (@RateLimitDecorator.wrapper Unit Unit (RateLimitDecorator.init 1 1 false true)
        2 2 2 (Except.ok ())).1 = WrapperResult.ok () :=
  C10_theorem Unit Unit () () (RateLimitDecorator.init 1 1 false true) 2 2 2
    (by norm_num [RateLimitDecorator.init, RateLimitDecorator.step,
      RateLimitDecorator.period_remaining, RateLimitDecorator.replenished,
      RateLimitDecorator.admitFrom, pyInt, Decision.isRaised])
